import Mathlib

/-!
Verification of the Airly air-quality collector and migration utility,
a shallow embedding of src/airly_collector.py and src/db_setup.py.

Modelling conventions:
* Python floats are modelled as rationals (Rat); numeric expressions of the
  source are translated literally.
* CSV files are modelled at value level: one cell of a file is a Cell.
  The Python csv writer serializes a value with str, and the migration path
  reads it back with float or int; str followed by float is the identity on
  floats, so a numeric cell is kept as a number.  A cell holding a datetime
  string produced by strftime is kept as the datetime value, since strftime
  is injective on valid datetimes and strptime with the same format inverts
  it.  A non-numeric, non-empty string cell makes float() or int() raise,
  which the model signals with none.
* Outcomes that depend on the environment (database availability, insert
  failures, HTTP results) enter the model as explicit oracle parameters.
-/

/-- Naive UTC datetime, as produced by
datetime.now(timezone.utc).replace(tzinfo=None) in the collector and by
datetime.strptime in the migration engine.  The model keeps the six
calendar fields. -/
structure Timestamp where
  year : Nat
  month : Nat
  day : Nat
  hour : Nat
  minute : Nat
  second : Nat
deriving DecidableEq

/-- One CSV cell at value level (see the module conventions above).
strC is a plain string (the empty string is the serialization of an absent
optional field), num a float, intC a Python int, dt a strftime datetime. -/
inductive Cell where
  | strC (s : String)
  | num (q : Rat)
  | intC (n : Nat)
  | dt (t : Timestamp)
deriving DecidableEq

/-- The dataclass Measurement of airly_collector.py: one air quality
reading.  Optional fields default to absent, never to zero. -/
structure Measurement where
  timestamp : Timestamp
  city : String
  latitude : Rat
  longitude : Rat
  pm25 : Option Rat := none
  pm10 : Option Rat := none
  temperature : Option Rat := none
  humidity : Option Rat := none
  pressure : Option Rat := none
  aqi : Option Rat := none
  station_id : Option Int := none
deriving DecidableEq

/-- Property hour_utc of Measurement: self.timestamp.hour. -/
def Measurement.hour_utc (m : Measurement) : Nat := m.timestamp.hour

/-- Property minute_utc of Measurement: self.timestamp.minute. -/
def Measurement.minute_utc (m : Measurement) : Nat := m.timestamp.minute

/-- Serialization of one optional field in Measurement.to_csv_row:
the expression x if x is not None else the empty string. -/
def optCell : Option Rat → Cell
  | some q => Cell.num q
  | none => Cell.strC ""

/-- Measurement.to_csv_row of airly_collector.py, one cell per column. -/
def Measurement.to_csv_row (m : Measurement) : List Cell :=
  [Cell.dt m.timestamp, Cell.strC m.city, Cell.num m.latitude, Cell.num m.longitude,
   Cell.intC m.hour_utc, Cell.intC m.minute_utc,
   optCell m.pm25, optCell m.pm10, optCell m.temperature, optCell m.humidity,
   optCell m.pressure, optCell m.aqi]

/-- The fields of the Config dataclass that the modelled functions read.
Transport settings (URLs, keys, credentials, timeouts) belong to the
excluded transport collaborator and are omitted. -/
structure Config where
  city_name : String
  latitude : Rat
  longitude : Rat
  installation_id : Int
  enable_database : Bool
  enable_csv : Bool
  enable_hsbi : Bool
  hsbi_sensor_id : Int
  hsbi_altitude : Rat
deriving DecidableEq

/-- One element of a values list in the provider payload.  Indexing
v[name] and v[value] in the source raises on a missing key, so both
fields are required here. -/
structure ValueEntry where
  name : String
  value : Rat
deriving DecidableEq

/-- One element of an indexes list; the source reads it with
indexes[0].get(value), whose result may be absent. -/
structure IndexEntry where
  value : Option Rat
deriving DecidableEq

/-- A current section or one history element of the provider payload.
The source reads both keys with .get and a default of the empty list, so
an absent key and an empty list coincide. -/
structure PayloadSection where
  values : List ValueEntry
  indexes : List IndexEntry
deriving DecidableEq

/-- The provider payload.  current is none when the key is absent or its
value is falsy; a history element is none when that element is a falsy
(empty) dict, which the source rejects with the check if not source. -/
structure Payload where
  current : Option PayloadSection
  history : List (Option PayloadSection)
deriving DecidableEq

/-- Lookup in the name to value dict built by the loop
for v in source.get(values, []): values[v[name]] = v[value],
followed by values.get(n): the last occurrence of a name wins. -/
def lastValue? (vs : List ValueEntry) (n : String) : Option Rat :=
  vs.foldl (fun acc v => if v.name = n then some v.value else acc) none

/-- First element of the history list, as read by data[history][0];
yields none for an empty list or a falsy first element. -/
def histHead : List (Option PayloadSection) → Option PayloadSection
  | [] => none
  | s :: _ => s

/-- Source selection of AirlyCollector.parse_measurement: current is
chosen when present and carrying a truthy (non-empty) values list,
otherwise the first history element; none means the no-data outcome. -/
def selectSource (data : Payload) : Option PayloadSection :=
  match data.current with
  | some c => if c.values.isEmpty then histHead data.history else some c
  | none => histHead data.history

/-- AirlyCollector.parse_measurement.  The timestamp argument stands for
datetime.now(timezone.utc).replace(tzinfo=None), the collection instant. -/
def parse_measurement (cfg : Config) (now : Timestamp) (data : Payload) :
    Option Measurement :=
  match selectSource data with
  | none => none
  | some src =>
    let aqi : Option Rat :=
      match src.indexes with
      | [] => none
      | i :: _ => i.value
    some { timestamp := now, city := cfg.city_name,
           latitude := cfg.latitude, longitude := cfg.longitude,
           pm25 := lastValue? src.values "PM25",
           pm10 := lastValue? src.values "PM10",
           temperature := lastValue? src.values "TEMPERATURE",
           humidity := lastValue? src.values "HUMIDITY",
           pressure := lastValue? src.values "PRESSURE",
           aqi := aqi,
           station_id := some cfg.installation_id }

/-- CSV_HEADERS of AirlyCollector. -/
def CSV_HEADERS : List String :=
  ["datetime_utc", "city", "lat", "lon", "hour_utc", "minute_utc",
   "PM25", "PM10", "TEMPERATURE", "HUMIDITY", "PRESSURE", "AQI"]

/-- File contents produced by AirlyCollector.save_to_csv: existing is the
current file content (none when the file does not exist); the header row
is written first exactly in that case, then the measurement row is
appended. -/
def save_to_csv (existing : Option (List (List Cell))) (m : Measurement) :
    List (List Cell) :=
  match existing with
  | none => [CSV_HEADERS.map Cell.strC, m.to_csv_row]
  | some rows => rows ++ [m.to_csv_row]

/-- The JSON payload built by AirlyCollector.send_to_hsbi.  The pos field
of the source is the WKT string POINTZ(lat lon alt); the model keeps the
three coordinates. -/
structure HsbiPayload where
  id : Int
  ts : Timestamp
  posLat : Rat
  posLon : Rat
  posAlt : Rat
  temp : Rat
  hum : Rat
  pres : Rat
  mass_pm2_5 : Rat
  mass_pm10 : Rat
  mass_pm1_0 : Rat
  mass_pm4 : Rat
  number_pm0_5 : Rat
  number_pm1_0 : Rat
  number_pm2_5 : Rat
  number_pm4 : Rat
  number_pm10 : Rat
deriving DecidableEq

/-- Payload construction of AirlyCollector.send_to_hsbi.  The Python
expression x or 0 yields 0 for an absent field and is value-preserving on
numbers (0.0 or 0 is 0), hence getD 0. -/
def send_to_hsbi (cfg : Config) (m : Measurement) : HsbiPayload :=
  { id := cfg.hsbi_sensor_id
    ts := m.timestamp
    posLat := cfg.latitude
    posLon := cfg.longitude
    posAlt := cfg.hsbi_altitude
    temp := m.temperature.getD 0
    hum := m.humidity.getD 0
    pres := m.pressure.getD 0
    mass_pm2_5 := m.pm25.getD 0
    mass_pm10 := m.pm10.getD 0
    mass_pm1_0 := (m.pm25.getD 0) * (0.7 : Rat)
    mass_pm4 := m.pm10.getD 0
    number_pm0_5 := 0
    number_pm1_0 := 0
    number_pm2_5 := 0
    number_pm4 := 0
    number_pm10 := 0 }

/-- Identifies one of the three sinks a collection cycle may invoke. -/
inductive SinkCall where
  | db
  | csv
  | hsbi
deriving DecidableEq

/-- Environmental outcomes of the three sink deliveries: the boolean each
of save_to_database, save_to_csv and send_to_hsbi would return if
invoked in this cycle. -/
structure SinkOutcomes where
  db : Bool
  csv : Bool
  hsbi : Bool
deriving DecidableEq

/-- AirlyCollector.collect_once.  fetched is the result of
fetch_from_airly (none covers a transport failure and a falsy payload),
out the environmental sink outcomes.  Returns the cycle result together
with the list of sinks invoked, in source order. -/
def collect_once (cfg : Config) (now : Timestamp) (fetched : Option Payload)
    (out : SinkOutcomes) : Bool × List SinkCall :=
  match fetched with
  | none => (false, [])
  | some data =>
    match parse_measurement cfg now data with
    | none => (false, [])
    | some _ =>
      let s1 : Bool := true
      let s2 : Bool := if cfg.enable_database then s1 && out.db else s1
      let calls2 : List SinkCall := if cfg.enable_database then [SinkCall.db] else []
      let s3 : Bool := if cfg.enable_csv then s2 && out.csv else s2
      let calls3 : List SinkCall :=
        if cfg.enable_csv then calls2 ++ [SinkCall.csv] else calls2
      let calls4 : List SinkCall :=
        if cfg.enable_hsbi then calls3 ++ [SinkCall.hsbi] else calls3
      (s3, calls4)

/-- One row of the measurements table as inserted by the two writers.
Nullable columns are Option; the collector writes lat, lon, hour and
minute from required Measurement fields, the migration engine may leave
them null when the CSV cell is empty. -/
structure DbRow where
  datetime_utc : Timestamp
  city : String
  lat : Option Rat
  lon : Option Rat
  hour_utc : Option Int
  minute_utc : Option Int
  pm25 : Option Rat
  pm10 : Option Rat
  temperature : Option Rat
  humidity : Option Rat
  pressure : Option Rat
  aqi : Option Rat
  station_id : Option Int
deriving DecidableEq

/-- The row AirlyCollector.save_to_database inserts for a measurement. -/
def dbRowOfMeasurement (m : Measurement) : DbRow :=
  { datetime_utc := m.timestamp
    city := m.city
    lat := some m.latitude
    lon := some m.longitude
    hour_utc := some (m.hour_utc : Int)
    minute_utc := some (m.minute_utc : Int)
    pm25 := m.pm25
    pm10 := m.pm10
    temperature := m.temperature
    humidity := m.humidity
    pressure := m.pressure
    aqi := m.aqi
    station_id := m.station_id }

/-- One row as handed to the migration loop by csv.DictReader under the
fixed sink header: one cell per header column.  station_id is an Option
because that column is absent from CSV_HEADERS; row.get(station_id)
yields none then. -/
structure CsvRow where
  datetime_utc : Cell
  city : Cell
  lat : Cell
  lon : Cell
  hour_utc : Cell
  minute_utc : Cell
  PM25 : Cell
  PM10 : Cell
  TEMPERATURE : Cell
  HUMIDITY : Cell
  PRESSURE : Cell
  AQI : Cell
  station_id : Option Cell
deriving DecidableEq

/-- csv.DictReader pairing of one data line with the sink header
CSV_HEADERS: the twelve cells in header order; no station_id column. -/
def dictReaderRow (cells : List Cell) : Option CsvRow :=
  match cells with
  | [d, c, la, lo, h, mi, p25, p10, t, hu, pr, a] =>
    some ⟨d, c, la, lo, h, mi, p25, p10, t, hu, pr, a, none⟩
  | _ => none

/-- datetime.strptime(cell, the fixed format): succeeds exactly on a
datetime cell (any other non-empty string raises ValueError, modelled by
the value-level Cell convention). -/
def strptime? : Cell → Option Timestamp
  | Cell.dt t => some t
  | _ => none

/-- Reading row[city]: in a real file every cell is a string; cells of
the other constructors cannot occur in the city column of a DictReader
row, and the model maps them to none (an unreachable parse failure). -/
def cellStr? : Cell → Option String
  | Cell.strC s => some s
  | _ => none

/-- The expression float(cell) if cell else None of migrate_csv: the
outer Option is none when float() raises, the inner value is None for a
falsy (empty) cell. -/
def cellFloat? : Cell → Option (Option Rat)
  | Cell.strC s => if s = "" then some none else none
  | Cell.num q => some (some q)
  | Cell.intC n => some (some (n : Rat))
  | Cell.dt _ => none

/-- The expression int(cell) if cell else None of migrate_csv; int()
raises on a float string, so only intC cells parse. -/
def cellInt? : Cell → Option (Option Int)
  | Cell.strC s => if s = "" then some none else none
  | Cell.num _ => none
  | Cell.intC n => some (some (n : Int))
  | Cell.dt _ => none

/-- The station id expression of migrate_csv:
int(row.get(station_id, DEFAULT_STATION_ID)) if row.get(station_id)
else DEFAULT_STATION_ID.  none means int() raised. -/
def stationOfRow (c? : Option Cell) (defSid : Int) : Option Int :=
  match c? with
  | none => some defSid
  | some (Cell.strC s) => if s = "" then some defSid else none
  | some (Cell.intC n) => some (n : Int)
  | some (Cell.num _) => none
  | some (Cell.dt _) => none

/-- The first two parses of one migration row: dt from strptime on
row[datetime_utc], city from row[city].  These happen before the
duplicate check. -/
def parseKey (r : CsvRow) : Option (Timestamp × String) :=
  match strptime? r.datetime_utc, cellStr? r.city with
  | some dt, some c => some (dt, c)
  | _, _ => none

/-- The values tuple of migrate_csv, built after the duplicate check;
none when any of the conversions raises and the row is skipped. -/
def parseValues (r : CsvRow) (dt : Timestamp) (city : String) (defSid : Int) :
    Option DbRow := do
  let la ← cellFloat? r.lat
  let lo ← cellFloat? r.lon
  let h ← cellInt? r.hour_utc
  let mi ← cellInt? r.minute_utc
  let p25 ← cellFloat? r.PM25
  let p10 ← cellFloat? r.PM10
  let t ← cellFloat? r.TEMPERATURE
  let hu ← cellFloat? r.HUMIDITY
  let pr ← cellFloat? r.PRESSURE
  let a ← cellFloat? r.AQI
  let sid ← stationOfRow r.station_id defSid
  pure ⟨dt, city, la, lo, h, mi, p25, p10, t, hu, pr, a, some sid⟩

/-- Full parse of one row, key stage then value stage (duplicate check
elided): what the row would insert. -/
def parseFull (defSid : Int) (r : CsvRow) : Option DbRow :=
  match parseKey r with
  | none => none
  | some (dt, c) => parseValues r dt c defSid

/-- The duplicate probe of migrate_csv: SELECT id FROM measurements WHERE
datetime_utc = dt AND city = c LIMIT 1, evaluated against the rows
visible to the open transaction (committed rows plus own inserts). -/
def hasKey (store : List DbRow) (dt : Timestamp) (c : String) : Bool :=
  store.any fun d => decide (d.datetime_utc = dt) && decide (d.city = c)

/-- The three counters migrate_csv reports. -/
structure MigStats where
  imported : Nat
  duplicate : Nat
  skipped : Nat
deriving DecidableEq

/-- Componentwise sum of two counter triples. -/
def MigStats.add (a b : MigStats) : MigStats :=
  ⟨a.imported + b.imported, a.duplicate + b.duplicate, a.skipped + b.skipped⟩

/-- Total number of rows accounted for. -/
def MigStats.total (a : MigStats) : Nat := a.imported + a.duplicate + a.skipped

/-- The body of the row loop of migrate_csv for one row.  The accumulator
carries the rows visible to the transaction, the counters and the
remaining insert oracle; the oracle is consumed one entry per attempted
INSERT (a false entry is a row-level insert failure, caught by the inner
except and counted as skipped; an exhausted oracle means success). -/
def migStep (defSid : Int) (skipDup : Bool)
    (acc : List DbRow × MigStats × List Bool) (r : CsvRow) :
    List DbRow × MigStats × List Bool :=
  let store := acc.1
  let stats := acc.2.1
  let oracle := acc.2.2
  match parseKey r with
  | none => (store, {stats with skipped := stats.skipped + 1}, oracle)
  | some (dt, c) =>
    if skipDup && hasKey store dt c then
      (store, {stats with duplicate := stats.duplicate + 1}, oracle)
    else
      match parseValues r dt c defSid with
      | none => (store, {stats with skipped := stats.skipped + 1}, oracle)
      | some v =>
        match oracle with
        | false :: os => (store, {stats with skipped := stats.skipped + 1}, os)
        | true :: os => (store ++ [v], {stats with imported := stats.imported + 1}, os)
        | [] => (store ++ [v], {stats with imported := stats.imported + 1}, [])

/-- Result of one migrate_csv call: the boolean the function returns, the
committed table contents, and the reported counters. -/
structure MigResult where
  ok : Bool
  store : List DbRow
  stats : MigStats
deriving DecidableEq

/-- migrate_csv of db_setup.py.  connOk is whether get_db_connection
succeeds (a failure returns False with the store untouched); commitOk is
whether the batch reaches its single commit (an exception on the way,
e.g. an I/O error while reading, triggers the outer except with rollback,
discarding every insert of the batch). -/
def migrate_csv (defSid : Int) (connOk commitOk skipDup : Bool)
    (oracle : List Bool) (store : List DbRow) (rows : List CsvRow) : MigResult :=
  if connOk then
    let r := rows.foldl (migStep defSid skipDup) (store, ⟨0, 0, 0⟩, oracle)
    if commitOk then ⟨true, r.1, r.2.1⟩ else ⟨false, store, r.2.1⟩
  else ⟨false, store, ⟨0, 0, 0⟩⟩

/-- DEFAULT_STATION_ID of db_setup.py when INSTALLATION_ID is unset. -/
def DEFAULT_STATION_ID : Int := 3387

/-- The row the migration engine inserts for a sink-written line of
measurement m: every Measurement field except station_id survives, and
station_id is the configured migration default. -/
def migratedOfMeasurement (m : Measurement) (defSid : Int) : DbRow :=
  { dbRowOfMeasurement m with station_id := some defSid }

/-! ## Helper lemmas and concrete fixtures -/

/-- A numeric cell written for an optional field reads back as the same
optional value through the float conversion of the migration path. -/
theorem cellFloat?_optCell (o : Option Rat) : cellFloat? (optCell o) = some o := by
  cases o <;> rfl

/-- A successfully parsed values tuple carries the datetime and city it
was probed with. -/
theorem parseValues_key (r : CsvRow) (dt : Timestamp) (c : String) (defSid : Int)
    (v : DbRow) (h : parseValues r dt c defSid = some v) :
    v.datetime_utc = dt ∧ v.city = c := by
  simp only [parseValues, Option.bind_eq_bind, Option.bind_eq_some, Option.pure_def,
    Option.some.injEq] at h
  obtain ⟨la, _, lo, _, hh, _, mi, _, p25, _, p10, _, t, _, hu, _, pr, _, a, _, sid, _, hv⟩ := h
  rw [← hv]
  exact ⟨rfl, rfl⟩

/-- Duplicate probe over a concatenation. -/
theorem hasKey_append (s1 s2 : List DbRow) (dt : Timestamp) (c : String) :
    hasKey (s1 ++ s2) dt c = (hasKey s1 dt c || hasKey s2 dt c) := by
  simp [hasKey, List.any_append]

/-- Duplicate probe over a single row. -/
theorem hasKey_single (v : DbRow) (dt : Timestamp) (c : String) :
    hasKey [v] dt c = (decide (v.datetime_utc = dt) && decide (v.city = c)) := by
  simp [hasKey]

/-- A row written by the file sink parses back: the key stage recovers
timestamp and city, and the value stage recovers every field, with the
station id replaced by the migration default. -/
theorem sinkRow_parses (m : Measurement) (defSid : Int) (r : CsvRow)
    (h : dictReaderRow m.to_csv_row = some r) :
    parseKey r = some (m.timestamp, m.city) ∧
    parseValues r m.timestamp m.city defSid = some (migratedOfMeasurement m defSid) := by
  have h0 : dictReaderRow m.to_csv_row =
      some ⟨Cell.dt m.timestamp, Cell.strC m.city, Cell.num m.latitude,
            Cell.num m.longitude, Cell.intC m.hour_utc, Cell.intC m.minute_utc,
            optCell m.pm25, optCell m.pm10, optCell m.temperature,
            optCell m.humidity, optCell m.pressure, optCell m.aqi, none⟩ := rfl
  rw [h0, Option.some_inj] at h
  subst h
  refine ⟨rfl, ?_⟩
  simp only [parseValues, cellFloat?_optCell]
  simp [cellFloat?, cellInt?, stationOfRow, migratedOfMeasurement, dbRowOfMeasurement]

/-- Common concrete timestamp for witnesses. -/
def t0 : Timestamp := ⟨2024, 1, 2, 3, 4, 5⟩

/-- Concrete measurement with every optional field absent. -/
def mAbsent : Measurement :=
  { timestamp := t0, city := "Gdansk", latitude := 54, longitude := 18 }

/-- Concrete measurement carrying values and a station id. -/
def mC5 : Measurement :=
  { timestamp := t0, city := "Gdansk", latitude := 54, longitude := 18,
    pm25 := some 10, aqi := some 50, station_id := some 42 }

/-- The DictReader row for the sink line of mC5. -/
def rC5 : CsvRow :=
  ⟨Cell.dt t0, Cell.strC "Gdansk", Cell.num 54, Cell.num 18, Cell.intC 3,
   Cell.intC 4, Cell.num 10, Cell.strC "", Cell.strC "", Cell.strC "",
   Cell.strC "", Cell.num 50, none⟩

/-! ## C6: file sink row shape -/

/-- C6: for a Measurement with all optional fields absent, the file sink
row has exactly 6 leading populated cells followed by 6 empty string
cells (not null and not zero) in the fixed header order, and the fixed
header row is written exactly when the target file does not yet exist. -/
theorem csv_row_absent_fields (m : Measurement) (f : List (List Cell))
    (h25 : m.pm25 = none) (h10 : m.pm10 = none) (ht : m.temperature = none)
    (hh : m.humidity = none) (hp : m.pressure = none) (ha : m.aqi = none) :
    m.to_csv_row =
      [Cell.dt m.timestamp, Cell.strC m.city, Cell.num m.latitude,
       Cell.num m.longitude, Cell.intC m.hour_utc, Cell.intC m.minute_utc] ++
        List.replicate 6 (Cell.strC "") ∧
    save_to_csv none m = [CSV_HEADERS.map Cell.strC, m.to_csv_row] ∧
    save_to_csv (some f) m = f ++ [m.to_csv_row] ∧
    (∀ q : Rat, Cell.strC "" ≠ Cell.num q) ∧ Cell.strC "" ≠ Cell.strC "null" := by
  refine ⟨?_, rfl, rfl, by intro q; simp, by simp⟩
  simp only [Measurement.to_csv_row, h25, h10, ht, hh, hp, ha, optCell]
  rfl

/-- C6 witness at the concrete all-absent measurement. -/
theorem csv_row_absent_fields_witness :
    mAbsent.to_csv_row =
      [Cell.dt mAbsent.timestamp, Cell.strC mAbsent.city, Cell.num mAbsent.latitude,
       Cell.num mAbsent.longitude, Cell.intC mAbsent.hour_utc,
       Cell.intC mAbsent.minute_utc] ++ List.replicate 6 (Cell.strC "") ∧
    save_to_csv none mAbsent = [CSV_HEADERS.map Cell.strC, mAbsent.to_csv_row] :=
  ⟨(csv_row_absent_fields mAbsent [] rfl rfl rfl rfl rfl rfl).1,
   (csv_row_absent_fields mAbsent [] rfl rfl rfl rfl rfl rfl).2.1⟩

/-! ## C7: forwarding sink payload -/

/-- C7: the forwarding payload substitutes 0 for each absent numeric
field, sets the derived field mass_pm1_0 to 0.7 times (pm25 or 0) which
is 0.7 times mass_pm2_5, and fills the number concentration placeholder
fields with zero for every measurement. -/
theorem hsbi_payload_fields (cfg : Config) (m : Measurement) :
    (send_to_hsbi cfg m).mass_pm1_0 = (0.7 : Rat) * (m.pm25.getD 0) ∧
    (send_to_hsbi cfg m).mass_pm1_0 = (0.7 : Rat) * (send_to_hsbi cfg m).mass_pm2_5 ∧
    (m.temperature = none → (send_to_hsbi cfg m).temp = 0) ∧
    (m.humidity = none → (send_to_hsbi cfg m).hum = 0) ∧
    (m.pressure = none → (send_to_hsbi cfg m).pres = 0) ∧
    (m.pm25 = none →
      (send_to_hsbi cfg m).mass_pm2_5 = 0 ∧ (send_to_hsbi cfg m).mass_pm1_0 = 0) ∧
    (m.pm10 = none →
      (send_to_hsbi cfg m).mass_pm10 = 0 ∧ (send_to_hsbi cfg m).mass_pm4 = 0) ∧
    (send_to_hsbi cfg m).number_pm0_5 = 0 ∧ (send_to_hsbi cfg m).number_pm1_0 = 0 ∧
    (send_to_hsbi cfg m).number_pm2_5 = 0 ∧ (send_to_hsbi cfg m).number_pm4 = 0 ∧
    (send_to_hsbi cfg m).number_pm10 = 0 := by
  refine ⟨by simp [send_to_hsbi, mul_comm], by simp [send_to_hsbi, mul_comm],
    ?_, ?_, ?_, ?_, ?_, rfl, rfl, rfl, rfl, rfl⟩
  all_goals intro h
  · simp [send_to_hsbi, h]
  · simp [send_to_hsbi, h]
  · simp [send_to_hsbi, h]
  · simp [send_to_hsbi, h]
  · simp [send_to_hsbi, h]

/-- Concrete configuration for witnesses: database enabled, file sink
disabled, forwarding enabled. -/
def cfgA : Config :=
  { city_name := "Gdansk", latitude := 54, longitude := 18,
    installation_id := 3387, enable_database := true, enable_csv := false,
    enable_hsbi := true, hsbi_sensor_id := 1, hsbi_altitude := 10 }

/-- C7 witness at the all-absent measurement. -/
theorem hsbi_payload_fields_witness :
    (send_to_hsbi cfgA mAbsent).temp = 0 ∧
    (send_to_hsbi cfgA mAbsent).mass_pm1_0 = (0.7 : Rat) * 0 ∧
    (send_to_hsbi cfgA mAbsent).number_pm10 = 0 := by
  have h := hsbi_payload_fields cfgA mAbsent
  exact ⟨h.2.2.1 rfl, h.1, h.2.2.2.2.2.2.2.2.2.2.2⟩

/-! ## C1: collection cycle outcome -/

/-- C1: when fetch and normalization succeed, the cycle reports success
exactly when every enabled sink among the relational store and the append
file succeeds, and the forwarding outcome never affects the reported
result. -/
theorem collect_once_success_contract (cfg : Config) (now : Timestamp)
    (data : Payload) (m : Measurement) (out : SinkOutcomes) (hs : Bool)
    (hparse : parse_measurement cfg now data = some m) :
    (collect_once cfg now (some data) out).1 =
      ((!cfg.enable_database || out.db) && (!cfg.enable_csv || out.csv)) ∧
    (collect_once cfg now (some data) { out with hsbi := hs }).1 =
      (collect_once cfg now (some data) out).1 := by
  constructor
  · simp only [collect_once, hparse]
    cases cfg.enable_database <;> cases cfg.enable_csv <;> simp
  · simp only [collect_once, hparse]

/-- Payload with a populated current section and a diverging history
entry, used by witnesses. -/
def payloadA : Payload :=
  { current := some { values := [⟨"PM25", 10⟩, ⟨"PM10", 20⟩], indexes := [⟨some 42⟩] },
    history := [some { values := [⟨"PM25", 99⟩], indexes := [] }] }

/-- Concrete configuration with both mandatory sinks enabled. -/
def cfgB : Config :=
  { city_name := "Gdansk", latitude := 54, longitude := 18,
    installation_id := 3387, enable_database := true, enable_csv := true,
    enable_hsbi := true, hsbi_sensor_id := 1, hsbi_altitude := 10 }

/-- C1 witness: with the relational sink succeeding, the file sink
disabled and forwarding failing the cycle succeeds; with the relational
sink failing and the file sink succeeding it fails. -/
theorem collect_once_success_contract_witness :
    (collect_once cfgA t0 (some payloadA) ⟨true, true, false⟩).1 = true ∧
    (collect_once cfgB t0 (some payloadA) ⟨false, true, true⟩).1 = false := by
  constructor
  · exact ((collect_once_success_contract cfgA t0 payloadA _ ⟨true, true, false⟩
      false rfl).1).trans (by decide)
  · exact ((collect_once_success_contract cfgB t0 payloadA _ ⟨false, true, true⟩
      false rfl).1).trans (by decide)

/-! ## C3: source selection and the no-data outcome -/

/-- C3: the normalizer prefers a current section with a non-empty values
list even when history is present, otherwise falls back to the first
history element, and when neither yields a source the cycle returns the
no-data outcome and invokes no sink. -/
theorem parse_source_selection (cfg : Config) (now : Timestamp) (data : Payload)
    (out : SinkOutcomes) :
    (∀ c, data.current = some c → c.values ≠ [] → selectSource data = some c) ∧
    ((data.current = none ∨ ∃ c, data.current = some c ∧ c.values = []) →
      selectSource data = histHead data.history) ∧
    (selectSource data = none →
      parse_measurement cfg now data = none ∧
      collect_once cfg now (some data) out = (false, [])) := by
  refine ⟨?_, ?_, ?_⟩
  · intro c hc hv
    simp [selectSource, hc, List.isEmpty_iff, hv]
  · rintro (h | ⟨c, hc, hv⟩)
    · simp [selectSource, h]
    · simp [selectSource, hc, hv]
  · intro h
    refine ⟨?_, ?_⟩
    · simp [parse_measurement, h]
    · simp [collect_once, parse_measurement, h]

/-- Payload with neither a usable current section nor history. -/
def payloadEmpty : Payload := { current := some { values := [], indexes := [] }, history := [] }

/-- C3 witness: a current section with an empty values list and both
selection outcomes, concretely. -/
theorem parse_source_selection_witness :
    selectSource payloadA = payloadA.current.get (by decide) ∧
    parse_measurement cfgA t0 payloadEmpty = none ∧
    collect_once cfgA t0 (some payloadEmpty) ⟨true, true, true⟩ = (false, []) := by
  have h1 := (parse_source_selection cfgA t0 payloadA ⟨true, true, true⟩).1
  have h3 := (parse_source_selection cfgA t0 payloadEmpty ⟨true, true, true⟩).2.2 rfl
  exact ⟨(h1 _ rfl (by decide)).trans (by decide), h3.1, h3.2⟩

/-! ## C8: flattening, index extraction and the narrow name contract -/

/-- C8: on any selected source the normalizer produces exactly the
measurement whose optional fields are the last-wins lookups of the five
known names and whose index is the value of the first indexes entry;
appending an entry makes its value win for its own name and changes no
other name, so unknown names are dropped silently. -/
theorem parse_values_mapping (cfg : Config) (now : Timestamp) (data : Payload)
    (src : PayloadSection) (hsel : selectSource data = some src) :
    parse_measurement cfg now data =
      some { timestamp := now, city := cfg.city_name, latitude := cfg.latitude,
             longitude := cfg.longitude,
             pm25 := lastValue? src.values "PM25",
             pm10 := lastValue? src.values "PM10",
             temperature := lastValue? src.values "TEMPERATURE",
             humidity := lastValue? src.values "HUMIDITY",
             pressure := lastValue? src.values "PRESSURE",
             aqi := src.indexes.head?.bind IndexEntry.value,
             station_id := some cfg.installation_id } ∧
    (∀ vs n (v : Rat), lastValue? (vs ++ [⟨n, v⟩]) n = some v) ∧
    (∀ vs (e : ValueEntry) n, e.name ≠ n →
      lastValue? (vs ++ [e]) n = lastValue? vs n) := by
  refine ⟨?_, ?_, ?_⟩
  · simp only [parse_measurement, hsel]
    cases hidx : src.indexes <;> simp [hidx]
  · intro vs n v
    simp [lastValue?, List.foldl_append]
  · intro vs e n hne
    simp [lastValue?, List.foldl_append, hne]

/-- C8 witness: duplicated PM25 name where the last occurrence wins, an
unknown name dropped, and the first index entry extracted. -/
theorem parse_values_mapping_witness :
    parse_measurement cfgA t0
      { current := some { values := [⟨"PM25", 1⟩, ⟨"SO2", 7⟩, ⟨"PM25", 2⟩],
                          indexes := [⟨some 42⟩, ⟨some 9⟩] },
        history := [] } =
      some { timestamp := t0, city := "Gdansk", latitude := 54, longitude := 18,
             pm25 := some 2, pm10 := none, temperature := none, humidity := none,
             pressure := none, aqi := some 42, station_id := some 3387 } := by
  exact (parse_values_mapping cfgA t0
    { current := some { values := [⟨"PM25", 1⟩, ⟨"SO2", 7⟩, ⟨"PM25", 2⟩],
                        indexes := [⟨some 42⟩, ⟨some 9⟩] },
      history := [] } _ rfl).1.trans (by decide)

/-! ## C4: deduplication uses only the identity key -/

/-- C4: two rows with the same datetime and city but different PM25
cells migrate as one import and one duplicate; only the first row is
retained regardless of the measured fields. -/
theorem dedup_identity_key_only (defSid : Int) (store : List DbRow)
    (r1 r2 : CsvRow) (dt : Timestamp) (c : String) (v1 : DbRow)
    (h1 : parseKey r1 = some (dt, c)) (h2 : parseKey r2 = some (dt, c))
    (_hpm : r1.PM25 ≠ r2.PM25)
    (hv : parseValues r1 dt c defSid = some v1)
    (hk : hasKey store dt c = false) :
    migrate_csv defSid true true true [] store [r1, r2] =
      ⟨true, store ++ [v1], ⟨1, 1, 0⟩⟩ := by
  have hkey := parseValues_key r1 dt c defSid v1 hv
  simp [migrate_csv, migStep, h1, h2, hv, hk, hasKey_append, hasKey_single,
    hkey.1, hkey.2]

/-- A second sink row sharing the key of rC5 but with a different PM25
value. -/
def rC5v : CsvRow :=
  ⟨Cell.dt t0, Cell.strC "Gdansk", Cell.num 54, Cell.num 18, Cell.intC 3,
   Cell.intC 4, Cell.num 11, Cell.strC "", Cell.strC "", Cell.strC "",
   Cell.strC "", Cell.num 50, none⟩

/-- C4 witness at concrete rows differing only in PM25. -/
theorem dedup_identity_key_only_witness :
    migrate_csv 3387 true true true [] [] [rC5, rC5v] =
      ⟨true, [migratedOfMeasurement mC5 3387], ⟨1, 1, 0⟩⟩ := by
  have h := dedup_identity_key_only 3387 [] rC5 rC5v t0 "Gdansk"
    (migratedOfMeasurement mC5 3387) rfl rfl (by decide) (by decide) rfl
  exact h.trans (by decide)

/-! ## C10: migrated sink rows get the default station id -/

/-- C10: the sink header has no station_id column, the sink row does not
depend on the station id of the measurement, and migrating a sink row
stores the configured default station id. -/
theorem migrate_default_station (m : Measurement) (defSid : Int)
    (store : List DbRow) (r : CsvRow) (sid : Option Int)
    (hr : dictReaderRow m.to_csv_row = some r)
    (hk : hasKey store m.timestamp m.city = false) :
    "station_id" ∉ CSV_HEADERS ∧
    Measurement.to_csv_row { m with station_id := sid } = m.to_csv_row ∧
    migrate_csv defSid true true true [] store [r] =
      ⟨true, store ++ [migratedOfMeasurement m defSid], ⟨1, 0, 0⟩⟩ ∧
    (migratedOfMeasurement m defSid).station_id = some defSid := by
  obtain ⟨hkey, hvals⟩ := sinkRow_parses m defSid r hr
  refine ⟨by decide, rfl, ?_, rfl⟩
  simp [migrate_csv, migStep, hkey, hk, hvals]

/-- C10 witness: migrating the sink row of mC5 (whose own station id is
42) stores station id 3387, the unset-environment default. -/
theorem migrate_default_station_witness :
    migrate_csv 3387 true true true [] [] [rC5] =
      ⟨true, [migratedOfMeasurement mC5 3387], ⟨1, 0, 0⟩⟩ ∧
    (migratedOfMeasurement mC5 3387).station_id = some 3387 ∧
    DEFAULT_STATION_ID = 3387 := by
  have h := migrate_default_station mC5 3387 [] rC5 none rfl rfl
  exact ⟨h.2.2.1.trans (by decide), h.2.2.2, rfl⟩

/-! ## C5: file round trip -/

/-- C5 as stated is refuted: the station id of a measurement is not
representable in the sink file and does not survive the migration path.
Here mC5 carries station id 42, but the migrated record differs from the
record the collector would store, taking the default 3387 instead. -/
theorem roundtrip_counterexample :
    dictReaderRow mC5.to_csv_row = some rC5 ∧
    mC5.station_id = some 42 ∧
    (migrate_csv 3387 true true true [] [] [rC5]).store ≠ [dbRowOfMeasurement mC5] ∧
    (migrate_csv 3387 true true true [] [] [rC5]).store =
      [migratedOfMeasurement mC5 3387] := by
  decide

/-- C5 amended: a measurement written through the file sink and
re-parsed by the migration path yields a stored record all of whose
fields match the record the collector would persist, except station_id,
which is replaced by the migration default. -/
theorem roundtrip_preserves_fields_except_station (m : Measurement) (defSid : Int)
    (store : List DbRow) (r : CsvRow)
    (hr : dictReaderRow m.to_csv_row = some r)
    (hk : hasKey store m.timestamp m.city = false) :
    (migrate_csv defSid true true true [] store [r]).store =
      store ++ [migratedOfMeasurement m defSid] ∧
    (migratedOfMeasurement m defSid).datetime_utc = (dbRowOfMeasurement m).datetime_utc ∧
    (migratedOfMeasurement m defSid).city = (dbRowOfMeasurement m).city ∧
    (migratedOfMeasurement m defSid).lat = (dbRowOfMeasurement m).lat ∧
    (migratedOfMeasurement m defSid).lon = (dbRowOfMeasurement m).lon ∧
    (migratedOfMeasurement m defSid).hour_utc = (dbRowOfMeasurement m).hour_utc ∧
    (migratedOfMeasurement m defSid).minute_utc = (dbRowOfMeasurement m).minute_utc ∧
    (migratedOfMeasurement m defSid).pm25 = (dbRowOfMeasurement m).pm25 ∧
    (migratedOfMeasurement m defSid).pm10 = (dbRowOfMeasurement m).pm10 ∧
    (migratedOfMeasurement m defSid).temperature = (dbRowOfMeasurement m).temperature ∧
    (migratedOfMeasurement m defSid).humidity = (dbRowOfMeasurement m).humidity ∧
    (migratedOfMeasurement m defSid).pressure = (dbRowOfMeasurement m).pressure ∧
    (migratedOfMeasurement m defSid).aqi = (dbRowOfMeasurement m).aqi ∧
    (migratedOfMeasurement m defSid).station_id = some defSid := by
  obtain ⟨hkey, hvals⟩ := sinkRow_parses m defSid r hr
  refine ⟨?_, rfl, rfl, rfl, rfl, rfl, rfl, rfl, rfl, rfl, rfl, rfl, rfl, rfl⟩
  simp [migrate_csv, migStep, hkey, hk, hvals]

/-- C5 amended witness at the concrete sink row of mC5. -/
theorem roundtrip_preserves_fields_except_station_witness :
    (migrate_csv 3387 true true true [] [] [rC5]).store =
      [migratedOfMeasurement mC5 3387] ∧
    (migratedOfMeasurement mC5 3387).pm25 = (dbRowOfMeasurement mC5).pm25 := by
  have h := roundtrip_preserves_fields_except_station mC5 3387 [] rC5 rfl rfl
  exact ⟨h.1.trans (by decide), h.2.2.2.2.2.2.2.1⟩

/-! ## Migration fold lemmas -/

/-- A fully parsed row inserts a record carrying its own key. -/
theorem parseFull_key (defSid : Int) (r : CsvRow) (v : DbRow)
    (h : parseFull defSid r = some v) :
    parseKey r = some (v.datetime_utc, v.city) := by
  rcases hk : parseKey r with _ | ⟨dt, c⟩
  · rw [parseFull, hk] at h
    exact absurd h (by simp)
  · rw [parseFull, hk] at h
    obtain ⟨h1, h2⟩ := parseValues_key r dt c defSid v h
    rw [h1, h2]

/-- The duplicate predicate is false on a record with a different key. -/
theorem keyMatch_false (v : DbRow) (dt : Timestamp) (c : String)
    (h : (v.datetime_utc, v.city) ≠ (dt, c)) :
    (decide (v.datetime_utc = dt) && decide (v.city = c)) = false := by
  cases hd : decide (v.datetime_utc = dt)
  · simp
  · simp only [Bool.true_and]
    cases hc : decide (v.city = c)
    · rfl
    · exact absurd (by rw [of_decide_eq_true hd, of_decide_eq_true hc]) h

/-- Running the row loop over fully parseable rows with pairwise distinct
keys, none of which is in the store, inserts every row and counts them
all as imported. -/
theorem migrate_insert_run (defSid : Int) (rows : List CsvRow) :
    ∀ (st : List DbRow) (s : MigStats),
    (∀ r ∈ rows, (parseFull defSid r).isSome) →
    ((rows.map parseKey).Nodup) →
    (∀ r ∈ rows, ∀ dt c, parseKey r = some (dt, c) → hasKey st dt c = false) →
    rows.foldl (migStep defSid true) (st, s, []) =
      (st ++ rows.filterMap (parseFull defSid),
       ⟨s.imported + rows.length, s.duplicate, s.skipped⟩, []) := by
  induction rows with
  | nil => intro st s _ _ _; simp
  | cons r rest ih =>
    intro st s hclean hnodup hfresh
    have hc : (parseFull defSid r).isSome := hclean r (List.mem_cons_self r rest)
    obtain ⟨dt, c, hkey⟩ : ∃ dt c, parseKey r = some (dt, c) := by
      rcases hk : parseKey r with _ | ⟨dt, c⟩
      · rw [parseFull, hk] at hc
        simp at hc
      · exact ⟨dt, c, rfl⟩
    obtain ⟨v, hv⟩ : ∃ v, parseValues r dt c defSid = some v := by
      rw [parseFull, hkey] at hc
      exact Option.isSome_iff_exists.mp hc
    have hkst : hasKey st dt c = false := hfresh r (List.mem_cons_self r rest) dt c hkey
    have hvkey := parseValues_key r dt c defSid v hv
    have hfull : parseFull defSid r = some v := by rw [parseFull, hkey]; exact hv
    have hstep : migStep defSid true (st, s, []) r =
        (st ++ [v], ⟨s.imported + 1, s.duplicate, s.skipped⟩, []) := by
      simp [migStep, hkey, hkst, hv]
    rw [List.map_cons, List.nodup_cons] at hnodup
    have hfresh2 : ∀ r2 ∈ rest, ∀ dt2 c2, parseKey r2 = some (dt2, c2) →
        hasKey (st ++ [v]) dt2 c2 = false := by
      intro r2 hr2 dt2 c2 hk2
      have h1 : hasKey st dt2 c2 = false :=
        hfresh r2 (List.mem_cons_of_mem r hr2) dt2 c2 hk2
      have hne : (v.datetime_utc, v.city) ≠ (dt2, c2) := by
        intro he
        apply hnodup.1
        refine List.mem_map.mpr ⟨r2, hr2, ?_⟩
        rw [hk2, hkey, ← he, hvkey.1, hvkey.2]
      rw [hasKey_append, hasKey_single, h1, keyMatch_false v dt2 c2 hne]
      rfl
    rw [List.foldl_cons, hstep,
      ih (st ++ [v]) ⟨s.imported + 1, s.duplicate, s.skipped⟩
        (fun r2 h2 => hclean r2 (List.mem_cons_of_mem r h2)) hnodup.2 hfresh2]
    have hfm : (r :: rest).filterMap (parseFull defSid) =
        v :: rest.filterMap (parseFull defSid) := by
      simp [List.filterMap_cons, hfull]
    rw [hfm]
    simp only [Prod.mk.injEq, MigStats.mk.injEq, List.length_cons, List.append_assoc,
      List.singleton_append, and_true, true_and]
    omega

/-- Running the row loop over rows whose keys are all already present in
the store leaves the store unchanged and counts every row as a
duplicate. -/
theorem migrate_dup_run (defSid : Int) (st : List DbRow) (rows : List CsvRow) :
    ∀ (s : MigStats) (o : List Bool),
    (∀ r ∈ rows, ∃ dt c, parseKey r = some (dt, c) ∧ hasKey st dt c = true) →
    rows.foldl (migStep defSid true) (st, s, o) =
      (st, ⟨s.imported, s.duplicate + rows.length, s.skipped⟩, o) := by
  induction rows with
  | nil => intro s o _; simp
  | cons r rest ih =>
    intro s o hall
    obtain ⟨dt, c, hkey, hk⟩ := hall r (List.mem_cons_self r rest)
    have hstep : migStep defSid true (st, s, o) r =
        (st, ⟨s.imported, s.duplicate + 1, s.skipped⟩, o) := by
      simp [migStep, hkey, hk]
    rw [List.foldl_cons, hstep,
      ih ⟨s.imported, s.duplicate + 1, s.skipped⟩ o
        (fun r2 h2 => hall r2 (List.mem_cons_of_mem r h2))]
    simp only [Prod.mk.injEq, MigStats.mk.injEq, List.length_cons, and_true, true_and]
    omega

/-- No inserted record matches a key that no row of the file carries. -/
theorem keyCount_zero_of_not_mem (defSid : Int) (dt : Timestamp) (c : String) :
    ∀ rows : List CsvRow, (∀ r ∈ rows, parseKey r ≠ some (dt, c)) →
    ((rows.filterMap (parseFull defSid)).countP
      fun d => decide (d.datetime_utc = dt) && decide (d.city = c)) = 0 := by
  intro rows
  induction rows with
  | nil => intro _; simp
  | cons r rest ih =>
    intro hall
    rcases hf : parseFull defSid r with _ | v
    · simp only [List.filterMap_cons, hf]
      exact ih (fun r2 h2 => hall r2 (List.mem_cons_of_mem r h2))
    · have hkr := parseFull_key defSid r v hf
      have hne : (v.datetime_utc, v.city) ≠ (dt, c) := by
        intro he
        exact hall r (List.mem_cons_self r rest) (by rw [hkr, he])
      simp only [List.filterMap_cons, hf, List.countP_cons,
        keyMatch_false v dt c hne, if_false]
      simpa using ih (fun r2 h2 => hall r2 (List.mem_cons_of_mem r h2))

/-- With pairwise distinct keys, the inserts of one run contain the key
of a member row exactly once. -/
theorem keyCount_one (defSid : Int) (rows : List CsvRow) :
    ∀ (r : CsvRow) (dt : Timestamp) (c : String),
    (∀ r2 ∈ rows, (parseFull defSid r2).isSome) →
    (rows.map parseKey).Nodup →
    r ∈ rows → parseKey r = some (dt, c) →
    ((rows.filterMap (parseFull defSid)).countP
      fun d => decide (d.datetime_utc = dt) && decide (d.city = c)) = 1 := by
  induction rows with
  | nil => intro r dt c _ _ h _; simp at h
  | cons r0 rest ih =>
    intro r dt c hclean hnodup hmem hkey
    rw [List.map_cons, List.nodup_cons] at hnodup
    obtain ⟨v0, hf0⟩ := Option.isSome_iff_exists.mp (hclean r0 (List.mem_cons_self r0 rest))
    have hk0 := parseFull_key defSid r0 v0 hf0
    rcases List.mem_cons.mp hmem with he | hmem2
    · subst he
      have hvk : (v0.datetime_utc, v0.city) = (dt, c) := by
        rw [hkey] at hk0
        exact Option.some_inj.mp hk0.symm
      have hbool : (decide (v0.datetime_utc = dt) && decide (v0.city = c)) = true := by
        have h1 : v0.datetime_utc = dt := congrArg Prod.fst hvk
        have h2 : v0.city = c := congrArg Prod.snd hvk
        simp [h1, h2]
      have hz := keyCount_zero_of_not_mem defSid dt c rest
        (fun r2 h2 hk2 => hnodup.1 (List.mem_map.mpr ⟨r2, h2, by rw [hk2, hkey]⟩))
      simp only [List.filterMap_cons, hf0, List.countP_cons, hbool, if_true, hz]
    · have hne : (v0.datetime_utc, v0.city) ≠ (dt, c) := by
        intro he2
        exact hnodup.1 (List.mem_map.mpr ⟨r, hmem2, by rw [hkey, hk0, he2]⟩)
      simp only [List.filterMap_cons, hf0, List.countP_cons,
        keyMatch_false v0 dt c hne, if_false]
      simpa using ih r dt c (fun r2 h2 => hclean r2 (List.mem_cons_of_mem r0 h2))
        hnodup.2 hmem2 hkey

/-! ## C2: idempotence of migration -/

/-- C2 as stated is refuted by a file containing the same row twice:
with an empty store, the first run imports one row and reports one
duplicate, while the second run reports two duplicates, which differs
from the first run's imported count of one. -/
theorem migrate_twice_counterexample :
    (migrate_csv 3387 true true true [] [] [rC5, rC5]).stats.imported = 1 ∧
    (migrate_csv 3387 true true true []
        (migrate_csv 3387 true true true [] [] [rC5, rC5]).store
        [rC5, rC5]).stats.duplicate = 2 ∧
    ¬ ((migrate_csv 3387 true true true []
          (migrate_csv 3387 true true true [] [] [rC5, rC5]).store
          [rC5, rC5]).stats.duplicate =
        (migrate_csv 3387 true true true [] [] [rC5, rC5]).stats.imported) := by
  decide

/-- C2 amended: over a file whose rows all parse, whose identity keys
are pairwise distinct and none of which is already stored, the first run
imports every row, the second run reports a duplicate count equal to the
first run's imported count, inserts nothing further, and each key ends
up stored exactly once. -/
theorem migrate_twice_idempotent (defSid : Int) (store : List DbRow)
    (rows : List CsvRow)
    (hclean : ∀ r ∈ rows, (parseFull defSid r).isSome)
    (hnodup : (rows.map parseKey).Nodup)
    (hfresh : ∀ r ∈ rows, ∀ dt c, parseKey r = some (dt, c) →
      hasKey store dt c = false) :
    (migrate_csv defSid true true true [] store rows).stats = ⟨rows.length, 0, 0⟩ ∧
    (migrate_csv defSid true true true []
        (migrate_csv defSid true true true [] store rows).store rows).stats.duplicate =
      (migrate_csv defSid true true true [] store rows).stats.imported ∧
    (migrate_csv defSid true true true []
        (migrate_csv defSid true true true [] store rows).store rows).store =
      (migrate_csv defSid true true true [] store rows).store ∧
    (migrate_csv defSid true true true [] store rows).store =
      store ++ rows.filterMap (parseFull defSid) ∧
    (∀ r ∈ rows, ∀ dt c, parseKey r = some (dt, c) →
      ((migrate_csv defSid true true true []
          (migrate_csv defSid true true true [] store rows).store rows).store.countP
        fun d => decide (d.datetime_utc = dt) && decide (d.city = c)) = 1) := by
  have hrun1 : rows.foldl (migStep defSid true) (store, ⟨0, 0, 0⟩, []) =
      (store ++ rows.filterMap (parseFull defSid), ⟨rows.length, 0, 0⟩, []) := by
    have h := migrate_insert_run defSid rows store ⟨0, 0, 0⟩ hclean hnodup hfresh
    simpa using h
  have hres1 : migrate_csv defSid true true true [] store rows =
      ⟨true, store ++ rows.filterMap (parseFull defSid), ⟨rows.length, 0, 0⟩⟩ := by
    simp [migrate_csv, hrun1]
  have hall2 : ∀ r ∈ rows, ∃ dt c, parseKey r = some (dt, c) ∧
      hasKey (store ++ rows.filterMap (parseFull defSid)) dt c = true := by
    intro r hr
    obtain ⟨v, hf⟩ := Option.isSome_iff_exists.mp (hclean r hr)
    refine ⟨v.datetime_utc, v.city, parseFull_key defSid r v hf, ?_⟩
    rw [hasKey_append]
    have hvmem : v ∈ rows.filterMap (parseFull defSid) :=
      List.mem_filterMap.mpr ⟨r, hr, hf⟩
    have hin : hasKey (rows.filterMap (parseFull defSid)) v.datetime_utc v.city = true := by
      rw [hasKey, List.any_eq_true]
      exact ⟨v, hvmem, by simp⟩
    rw [hin, Bool.or_true]
  have hrun2 : rows.foldl (migStep defSid true)
      (store ++ rows.filterMap (parseFull defSid), ⟨0, 0, 0⟩, []) =
      (store ++ rows.filterMap (parseFull defSid), ⟨0, rows.length, 0⟩, []) := by
    have h := migrate_dup_run defSid (store ++ rows.filterMap (parseFull defSid))
      rows ⟨0, 0, 0⟩ [] hall2
    simpa using h
  have hres2 : migrate_csv defSid true true true []
      (store ++ rows.filterMap (parseFull defSid)) rows =
      ⟨true, store ++ rows.filterMap (parseFull defSid), ⟨0, rows.length, 0⟩⟩ := by
    simp [migrate_csv, hrun2]
  refine ⟨by rw [hres1], ?_, ?_, by rw [hres1], ?_⟩
  · simp only [hres1, hres2]
  · simp only [hres1, hres2]
  · intro r hr dt c hk
    simp only [hres1, hres2]
    rw [List.countP_append]
    have h0 : store.countP
        (fun d => decide (d.datetime_utc = dt) && decide (d.city = c)) = 0 := by
      rw [List.countP_eq_zero]
      intro d hd
      have hf := hfresh r hr dt c hk
      rw [hasKey] at hf
      have := List.any_eq_false.mp hf d hd
      simpa using this
    rw [h0, keyCount_one defSid rows r dt c hclean hnodup hr hk]

/-- C2 amended witness at a one-row file over an empty store. -/
theorem migrate_twice_idempotent_witness :
    (migrate_csv 3387 true true true [] [] [rC5]).stats = ⟨1, 0, 0⟩ ∧
    (migrate_csv 3387 true true true []
        (migrate_csv 3387 true true true [] [] [rC5]).store [rC5]).stats.duplicate =
      (migrate_csv 3387 true true true [] [] [rC5]).stats.imported := by
  have h := migrate_twice_idempotent 3387 [] [rC5] (by decide) (by decide)
    (fun r hr dt c hk => rfl)
  exact ⟨h.1, h.2.1⟩

/-! ## C9: error handling of the migration engine -/

/-- Every row of the loop increments exactly one of the three counters. -/
theorem migStep_total (defSid : Int) (d : Bool) (st : List DbRow) (s : MigStats)
    (o : List Bool) (r : CsvRow) :
    ((migStep defSid d (st, s, o) r).2.1).total = s.total + 1 := by
  rcases hk : parseKey r with _ | ⟨dt, c⟩
  · simp [migStep, hk, MigStats.total]
    omega
  · cases hd : d && hasKey st dt c
    · rcases hv : parseValues r dt c defSid with _ | v
      · simp [migStep, hk, hd, hv, MigStats.total]
        omega
      · rcases o with _ | ⟨b, os⟩
        · simp [migStep, hk, hd, hv, MigStats.total]
          omega
        · cases b <;> simp [migStep, hk, hd, hv, MigStats.total] <;> omega
    · simp [migStep, hk, hd, MigStats.total]
      omega

/-- The counters reported after the loop account for every row once. -/
theorem migrate_total (defSid : Int) (d : Bool) (rows : List CsvRow) :
    ∀ (st : List DbRow) (s : MigStats) (o : List Bool),
    ((rows.foldl (migStep defSid d) (st, s, o)).2.1).total = s.total + rows.length := by
  induction rows with
  | nil => intro st s o; simp
  | cons r rest ih =>
    intro st s o
    rcases hstep : migStep defSid d (st, s, o) r with ⟨st1, s1, o1⟩
    have htot : s1.total = s.total + 1 := by
      have h := migStep_total defSid d st s o r
      rw [hstep] at h
      exact h
    rw [List.foldl_cons, hstep, ih st1 s1 o1, htot]
    simp [List.length_cons]
    omega

/-- The counter updates of one loop iteration are additive in the
starting counters. -/
theorem migStep_add (defSid : Int) (d : Bool) (st : List DbRow) (s : MigStats)
    (o : List Bool) (r : CsvRow) :
    migStep defSid d (st, s, o) r =
      ((migStep defSid d (st, ⟨0, 0, 0⟩, o) r).1,
       s.add (migStep defSid d (st, ⟨0, 0, 0⟩, o) r).2.1,
       (migStep defSid d (st, ⟨0, 0, 0⟩, o) r).2.2) := by
  rcases hk : parseKey r with _ | ⟨dt, c⟩
  · simp [migStep, hk, MigStats.add]
  · cases hd : d && hasKey st dt c
    · rcases hv : parseValues r dt c defSid with _ | v
      · simp [migStep, hk, hd, hv, MigStats.add]
      · rcases o with _ | ⟨b, os⟩
        · simp [migStep, hk, hd, hv, MigStats.add]
        · cases b <;> simp [migStep, hk, hd, hv, MigStats.add]
    · simp [migStep, hk, hd, MigStats.add]

/-- Adding the zero counters changes nothing. -/
theorem MigStats.add_zero (s : MigStats) : s.add ⟨0, 0, 0⟩ = s := by
  cases s
  simp [MigStats.add]

/-- Counter addition is associative. -/
theorem MigStats.add_assoc (a b c : MigStats) :
    (a.add b).add c = a.add (b.add c) := by
  cases a; cases b; cases c
  simp [MigStats.add]
  omega

/-- The counters of a whole loop run are additive in the starting
counters; store and oracle do not depend on them. -/
theorem migrate_add (defSid : Int) (d : Bool) (rows : List CsvRow) :
    ∀ (st : List DbRow) (s : MigStats) (o : List Bool),
    rows.foldl (migStep defSid d) (st, s, o) =
      ((rows.foldl (migStep defSid d) (st, ⟨0, 0, 0⟩, o)).1,
       s.add (rows.foldl (migStep defSid d) (st, ⟨0, 0, 0⟩, o)).2.1,
       (rows.foldl (migStep defSid d) (st, ⟨0, 0, 0⟩, o)).2.2) := by
  induction rows with
  | nil => intro st s o; simp [MigStats.add_zero]
  | cons r rest ih =>
    intro st s o
    rcases hstep : migStep defSid d (st, ⟨0, 0, 0⟩, o) r with ⟨st1, s1, o1⟩
    have hstep2 : migStep defSid d (st, s, o) r = (st1, s.add s1, o1) := by
      rw [migStep_add defSid d st s o r, hstep]
    rw [List.foldl_cons, List.foldl_cons, hstep, hstep2, ih st1 (s.add s1) o1, ih st1 s1 o1]
    rcases hrest : rest.foldl (migStep defSid d) (st1, ⟨0, 0, 0⟩, o1) with ⟨st2, s2, o2⟩
    simp [MigStats.add_assoc]

/-- A parse-skipped row as the migration loop sees it: a datetime cell
strptime rejects. -/
def rBad : CsvRow :=
  ⟨Cell.strC "garbage", Cell.strC "Gdansk", Cell.num 54, Cell.num 18, Cell.intC 3,
   Cell.intC 4, Cell.num 10, Cell.strC "", Cell.strC "", Cell.strC "",
   Cell.strC "", Cell.num 50, none⟩

/-- C9: every migrated row is reported in exactly one of the three
counts; a row that fails to parse is counted skipped without aborting the
remaining rows; a row whose insert fails at row level is counted skipped
without aborting the remaining rows; a connection failure returns failure
with the store untouched; a batch that never reaches its single commit
rolls back, leaving the store untouched. -/
theorem migrate_error_handling (defSid : Int) (d : Bool) (oracle os : List Bool)
    (store : List DbRow) (rows rest : List CsvRow) (r : CsvRow)
    (dt : Timestamp) (c : String) (v : DbRow) :
    (migrate_csv defSid true true d oracle store rows).stats.total = rows.length ∧
    (parseKey r = none →
      migrate_csv defSid true true d oracle store (r :: rest) =
        ⟨true, (migrate_csv defSid true true d oracle store rest).store,
         MigStats.add ⟨0, 0, 1⟩ (migrate_csv defSid true true d oracle store rest).stats⟩) ∧
    (parseKey r = some (dt, c) → hasKey store dt c = false →
      parseValues r dt c defSid = some v →
      migrate_csv defSid true true d (false :: os) store (r :: rest) =
        ⟨true, (migrate_csv defSid true true d os store rest).store,
         MigStats.add ⟨0, 0, 1⟩ (migrate_csv defSid true true d os store rest).stats⟩) ∧
    migrate_csv defSid false true d oracle store rows = ⟨false, store, ⟨0, 0, 0⟩⟩ ∧
    (migrate_csv defSid true false d oracle store rows).ok = false ∧
    (migrate_csv defSid true false d oracle store rows).store = store := by
  refine ⟨?_, ?_, ?_, by simp [migrate_csv], by simp [migrate_csv], by simp [migrate_csv]⟩
  · have h := migrate_total defSid d rows store ⟨0, 0, 0⟩ oracle
    simpa [migrate_csv, MigStats.total] using h
  · intro hk
    have hstep : migStep defSid d (store, ⟨0, 0, 0⟩, oracle) r =
        (store, ⟨0, 0, 1⟩, oracle) := by
      simp [migStep, hk]
    simp only [migrate_csv, if_true, List.foldl_cons, hstep]
    rw [migrate_add defSid d rest store ⟨0, 0, 1⟩ oracle]
  · intro hk hks hv
    have hstep : migStep defSid d (store, ⟨0, 0, 0⟩, false :: os) r =
        (store, ⟨0, 0, 1⟩, os) := by
      simp [migStep, hk, hks, hv]
    simp only [migrate_csv, if_true, List.foldl_cons, hstep]
    rw [migrate_add defSid d rest store ⟨0, 0, 1⟩ os]

/-- C9 witness: a garbage datetime row is skipped without stopping the
following row, a failing insert is skipped, and a connection failure
leaves the store untouched. -/
theorem migrate_error_handling_witness :
    (migrate_csv 3387 true true true [] [] [rBad, rC5]).stats.total = 2 ∧
    migrate_csv 3387 true true true [] [] [rBad, rC5] =
      ⟨true, [migratedOfMeasurement mC5 3387], ⟨1, 0, 1⟩⟩ ∧
    migrate_csv 3387 true true true [false] [] [rC5] = ⟨true, [], ⟨0, 0, 1⟩⟩ ∧
    migrate_csv 3387 false true true [] [] [rC5] = ⟨false, [], ⟨0, 0, 0⟩⟩ := by
  have h := migrate_error_handling 3387 true [] [] [] [rBad, rC5] [rC5] rBad t0 "Gdansk"
    (migratedOfMeasurement mC5 3387)
  have h2 := migrate_error_handling 3387 true [] [] [] [rC5] [] rC5 t0 "Gdansk"
    (migratedOfMeasurement mC5 3387)
  refine ⟨h.1, (h.2.1 rfl).trans (by decide), (h2.2.2.1 rfl rfl (by decide)).trans (by decide),
    h2.2.2.2.1⟩
